import Mathlib

/-!
Shallow embedding of the declarative-configuration synthesis pipeline of
`src/pkg/agent/as3/as3Resource.go` (package `as3` of k8s-bigip-ctlr).

Modelling conventions:
* Go structs become Lean structures; Go `nil`-able pointers become `Option`;
  Go slices become `List`; in-place mutation becomes explicit state passing.
* Go maps (`MetaData.RouteProfs`, the exposure-record groups of
  `am.IntF5Res`, `am.Resources.RsMap`) are modelled by the *enumeration* a
  `for ... range` loop sees: a list of key/value pairs.  Two enumerations of
  the same map are permutations of each other.
* `log.Warningf` calls become an explicit list of emitted warning strings.
* Helpers of this repository that are referenced by the source file but are
  not under `src/` (`updateVirtualToHTTPS`, `updatePolicyWithWAF`,
  `isDefaultAS3PartitionEmpty`, and the string constants of the `resource`
  package) are modelled from the spec; each carries a doc comment saying so.
-/

namespace AS3

/-- Modelled from the spec: the resource-kind tag for Route-style frontends
(constant `ResourceTypeRoute` of the `resource` package is not under src/). -/
def ResourceTypeRoute : String := "route"

/-- Modelled from the spec: the resource-kind tag for Ingress-style frontends
(constant `ResourceTypeIngress` of the `resource` package is not under src/). -/
def ResourceTypeIngress : String := "ingress"

/-- Modelled from the spec: the client-side-termination profile context
(constant `CustomProfileClient` of the `resource` package is not under src/). -/
def CustomProfileClient : String := "clientside"

/-- Modelled from the spec: the server-side-re-encryption profile context
(constant `CustomProfileServer` of the `resource` package is not under src/). -/
def CustomProfileServer : String := "serverside"

/-- Exposure value HTTP (`src/pkg/controller/constants.go` has the same value). -/
def HTTP : String := "http"

/-- Exposure value HTTPS (`src/pkg/controller/constants.go` has the same value). -/
def HTTPS : String := "https"

/-- Modelled from the spec: the HTTP-and-HTTPS exposure value (constant
`HTTPANDS` of the `resource` package is not under src/); only its distinctness
from `HTTP` and `HTTPS` matters. -/
def HTTPANDS : String := "httpands"

/-- AS3 resource pointer: a reference to an object already known to the
device (`as3ResourcePointer`, field `BigIP`). -/
structure as3ResourcePointer where
  bigip : String
deriving DecidableEq, Repr

/-- The slice of the AS3 `Service` object this pipeline touches: protocol,
the ordered ServerTLS pointer list and the single optional ClientTLS pointer.
Per the spec the Service object carries a protocol (HTTP/HTTPS) that the TLS
stage may upgrade. -/
structure as3Service where
  protocol : String
  serverTLS : List as3ResourcePointer
  clientTLS : Option as3ResourcePointer
deriving DecidableEq, Repr

/-- Modelled from the spec: `updateVirtualToHTTPS` is not under src/; per the
spec it upgrades the Service object's protocol to HTTPS. -/
def updateVirtualToHTTPS (svc : as3Service) : as3Service :=
  { svc with protocol := HTTPS }

/-- One entry of an Ingress-style frontend's profile list
(`Virtual.Profiles`): name, partition and context. -/
structure Profile where
  name : String
  partition : String
  context : String
deriving DecidableEq, Repr

/-- The part of the `Virtual` record read by the Ingress TLS path. -/
structure Virtual where
  profiles : List Profile
deriving DecidableEq, Repr

/-- Key of the Route-style `RouteProfs` map: only its `Context` is read here. -/
structure ProfileKey where
  name : String
  context : String
deriving DecidableEq, Repr

/-- The part of `MetaData` read by `processProfilesForAS3`: the resource kind
and the Route-style context-to-reference map.  `routeProfs` is the enumeration
of the Go map `MetaData.RouteProfs` as seen by `for key, val := range`. -/
structure MetaData where
  resourceType : String
  routeProfs : List (ProfileKey × String)
deriving DecidableEq, Repr

/-- The part of a `ResourceConfig` record read by the TLS attachment stage. -/
structure ResourceConfig where
  metaData : MetaData
  virtual : Virtual
deriving DecidableEq, Repr

/-- Loop body of `processIngressTLSProfilesForAS3` (lines 88-107 of
`as3Resource.go`): the accumulator is the local `serverTLS` slice paired with
the Service object being mutated. -/
def ingressStep (acc : List as3ResourcePointer × as3Service) (profile : Profile) :
    List as3ResourcePointer × as3Service :=
  if profile.partition = "Common" then
    if profile.context = CustomProfileClient then
      let rsPointer : as3ResourcePointer := ⟨"/" ++ profile.partition ++ "/" ++ profile.name⟩
      let serverTLS := acc.1 ++ [rsPointer]
      (serverTLS, updateVirtualToHTTPS { acc.2 with serverTLS := serverTLS })
    else if profile.context = CustomProfileServer then
      (acc.1, updateVirtualToHTTPS
        { acc.2 with clientTLS := some ⟨"/" ++ profile.partition ++ "/" ++ profile.name⟩ })
    else acc
  else acc

/-- `processIngressTLSProfilesForAS3` (lines 85-108). -/
def processIngressTLSProfilesForAS3 (virtual : Virtual) (svc : as3Service) : as3Service :=
  (virtual.profiles.foldl ingressStep ([], svc)).2

/-- Loop body of `processRouteTLSProfilesForAS3` (lines 112-127). -/
def routeStep (acc : List as3ResourcePointer × as3Service) (kv : ProfileKey × String) :
    List as3ResourcePointer × as3Service :=
  if kv.1.context = CustomProfileClient then
    let serverTLS := acc.1 ++ [(⟨kv.2⟩ : as3ResourcePointer)]
    (serverTLS, updateVirtualToHTTPS { acc.2 with serverTLS := serverTLS })
  else if kv.1.context = CustomProfileServer then
    (acc.1, updateVirtualToHTTPS { acc.2 with clientTLS := some ⟨kv.2⟩ })
  else acc

/-- `processRouteTLSProfilesForAS3` (lines 110-128); iterates one enumeration
of the `RouteProfs` map. -/
def processRouteTLSProfilesForAS3 (metadata : MetaData) (svc : as3Service) : as3Service :=
  (metadata.routeProfs.foldl routeStep ([], svc)).2

/-- Body of the `RsMap` loop of `processProfilesForAS3` (lines 71-81): the
second argument is the result of the `sharedApp` Service lookup (`nil` when
the frontend has no Service object in the tree).  Returns the (possibly
updated) Service and the warnings emitted for this item. -/
def processProfilesItem (cfg : ResourceConfig) (svcLookup : Option as3Service) :
    Option as3Service × List String :=
  match svcLookup with
  | none => (none, [])
  | some svc =>
    if cfg.metaData.resourceType = ResourceTypeRoute then
      (some (processRouteTLSProfilesForAS3 cfg.metaData svc), [])
    else if cfg.metaData.resourceType = ResourceTypeIngress then
      (some (processIngressTLSProfilesForAS3 cfg.virtual svc), [])
    else
      (some svc, ["Unsupported resource type: " ++ cfg.metaData.resourceType])

/-- `processProfilesForAS3` (lines 68-83) over one enumeration of `RsMap`,
each item paired with its `sharedApp` Service lookup; returns the per-item
results and the concatenated warning stream. -/
def processProfilesForAS3 (items : List (ResourceConfig × Option as3Service)) :
    List (Option as3Service) × List String :=
  items.foldl (fun acc it =>
    let r := processProfilesItem it.1 it.2
    (acc.1 ++ [r.1], acc.2 ++ r.2)) ([], [])

/-- One AS3 action (`as3Action`): kind, optional enabled flag (WAF), event
trigger (drop). -/
structure as3Action where
  actionKind : String
  enabled : Option Bool := none
  event : String := ""
deriving DecidableEq, Repr

/-- One policy rule (`as3Rule`): name and ordered action list. -/
structure as3Rule where
  name : String
  actions : List as3Action
deriving DecidableEq, Repr

/-- An L7 endpoint policy (`as3EndpointPolicy`): its ordered rule list. -/
structure as3EndpointPolicy where
  rules : List as3Rule
deriving DecidableEq, Repr

/-- The part of an exposure record's value read here: its `Virtual` exposure
string (HTTP / HTTPS / HTTP-and-HTTPS). -/
structure F5Resource where
  virtual : String
deriving DecidableEq, Repr

/-- The WAF-enable action appended to a rule named by an exposure record. -/
def wafEnableAction : as3Action := { actionKind := "waf", enabled := some true }

/-- Modelled from the spec: `updatePolicyWithWAF` is not under src/; per the
spec it appends a WAF-enable action to the rule of the policy identified by
the exposure record, and is a no-op for a record naming a rule not present in
the policy (no rule is created). -/
def updatePolicyWithWAF (ep : as3EndpointPolicy) (rec : String) (_res : F5Resource) :
    as3EndpointPolicy :=
  ⟨ep.rules.map fun rule =>
    if rule.name = rec then { rule with actions := rule.actions ++ [wafEnableAction] }
    else rule⟩

/-- The shared WAF-disable action (lines 139-142 and 190-193). -/
def wafDisableAction : as3Action := { actionKind := "waf", enabled := some false }

/-- The drop-on-request action of the synthetic trailing rule (lines 195-198). -/
def wafDropAction : as3Action := { actionKind := "drop", event := "request" }

/-- The synthetic trailing WAF-disable rule (lines 200-203). -/
def wafDisableRule : as3Rule :=
  { name := "openshift_route_waf_disable", actions := [wafDropAction, wafDisableAction] }

/-- Scan of a rule's actions for a WAF action (lines 145-151). -/
def isWAFRule (rule : as3Rule) : Bool :=
  rule.actions.any fun action => action.actionKind = "waf"

/-- Per-rule body of the `addWAFDisableAction` closure (lines 144-156). -/
def addDisable (rule : as3Rule) : as3Rule :=
  if isWAFRule rule then rule
  else { rule with actions := rule.actions ++ [wafDisableAction] }

/-- The `addWAFDisableAction` closure (lines 137-157): every rule without a
WAF action gets a WAF-disable action appended. -/
def addWAFDisableAction (ep : as3EndpointPolicy) : as3EndpointPolicy :=
  ⟨ep.rules.map addDisable⟩

/-- The local state of `processF5ResourcesForAS3`: the two touched flags and
the two conventional policies (absent when no frontend required them). -/
structure WAFState where
  isSecureWAF : Bool
  isInsecureWAF : Bool
  secureEP : Option as3EndpointPolicy
  insecureEP : Option as3EndpointPolicy
deriving DecidableEq, Repr

/-- The `case HTTPS` body (lines 169-173): if the secure policy exists, mark
it touched and update it. -/
def wafSecureUpdate (st : WAFState) (rec : String) (res : F5Resource) : WAFState :=
  match st.secureEP with
  | some ep => { st with isSecureWAF := true, secureEP := some (updatePolicyWithWAF ep rec res) }
  | none => st

/-- The `case HTTP` body (lines 180-184): if the insecure policy exists, mark
it touched and update it. -/
def wafInsecureUpdate (st : WAFState) (rec : String) (res : F5Resource) : WAFState :=
  match st.insecureEP with
  | some ep => { st with isInsecureWAF := true, insecureEP := some (updatePolicyWithWAF ep rec res) }
  | none => st

/-- The exposure-record dispatch (lines 168-185): `switch res.Virtual` with
the intentional `fallthrough` from HTTP-and-HTTPS into the HTTP case, and no
default case. -/
def wafStep (st : WAFState) (entry : String × F5Resource) : WAFState :=
  if entry.2.virtual = HTTPS then
    wafSecureUpdate st entry.1 entry.2
  else if entry.2.virtual = HTTPANDS then
    wafInsecureUpdate (wafSecureUpdate st entry.1 entry.2) entry.1 entry.2
  else if entry.2.virtual = HTTP then
    wafInsecureUpdate st entry.1 entry.2
  else st

/-- `processF5ResourcesForAS3` (lines 134-216): dispatch every exposure record
of every group of `am.IntF5Res`, then, for each policy marked touched, append
the synthetic trailing rule and give every WAF-less rule a WAF-disable action.
The second component is the warning stream of this stage; the function body
contains no logging call, so it is empty. -/
def processF5ResourcesForAS3 (intF5Res : List (List (String × F5Resource)))
    (secureEP insecureEP : Option as3EndpointPolicy) : WAFState × List String :=
  let st0 : WAFState := ⟨false, false, secureEP, insecureEP⟩
  let st := intF5Res.foldl (fun s resGroup => resGroup.foldl wafStep s) st0
  let st1 :=
    match st.isSecureWAF, st.secureEP with
    | true, some ep =>
        { st with secureEP := some (addWAFDisableAction ⟨ep.rules ++ [wafDisableRule]⟩) }
    | _, _ => st
  let st2 :=
    match st1.isInsecureWAF, st1.insecureEP with
    | true, some ep =>
        { st1 with insecureEP := some (addWAFDisableAction ⟨ep.rules ++ [wafDisableRule]⟩) }
    | _, _ => st1
  (st2, [])

/-- The raw-override configmap attached to a pass (field `Data`). -/
structure OverrideConfigMap where
  data : String
deriving DecidableEq, Repr

/-- The slice of `AS3Config` read by the override-suppression branch of
`prepareAS3ResourceConfig`: the name the default partition resolves to and the
override payload.  The declaration tree itself (`adc`, built by the stage
functions above and wrapped with the `controls` header) is opaque to that
branch and is not carried here. -/
structure AS3Config where
  defaultPartition : String
  overrideConfigmap : OverrideConfigMap
deriving DecidableEq, Repr

/-- Modelled from the spec: `isDefaultAS3PartitionEmpty` is not under src/;
per the spec the check is whether the declaration's target partition name
resolves to empty/unset. -/
def AS3Config.isDefaultAS3PartitionEmpty (cfg : AS3Config) : Bool :=
  cfg.defaultPartition = ""

/-- The override-suppression branch of `prepareAS3ResourceConfig` (lines
32-35): if the default partition is empty, the override payload is discarded. -/
def prepareAS3ResourceConfig (routeCfg : AS3Config) : AS3Config :=
  if routeCfg.isDefaultAS3PartitionEmpty then
    { routeCfg with overrideConfigmap := { routeCfg.overrideConfigmap with data := "" } }
  else routeCfg

/-- The Ingress TLS path writes an entry for a profile exactly when it lies in
the shared partition with client context (lines 89-91). -/
def isIngressClient (p : Profile) : Bool :=
  decide (p.partition = "Common" ∧ p.context = CustomProfileClient)

/-- Shared-partition server-context test of the Ingress TLS path (lines 89, 99). -/
def isIngressServer (p : Profile) : Bool :=
  decide (p.partition = "Common" ∧ p.context = CustomProfileServer)

/-- A profile the Ingress TLS path acts on at all. -/
def ingressEligible (p : Profile) : Bool := isIngressClient p || isIngressServer p

/-- The resource pointer built for a profile (lines 93-95, 101-103). -/
def ingressPtr (p : Profile) : as3ResourcePointer :=
  ⟨"/" ++ p.partition ++ "/" ++ p.name⟩

/-- The ServerTLS list accumulated by the Ingress TLS path. -/
def ingressClientPtrs (ps : List Profile) : List as3ResourcePointer :=
  (ps.filter isIngressClient).map ingressPtr

/-- Last-write-wins ClientTLS value of the Ingress TLS path. -/
def ingressLastServer (ps : List Profile) (d : Option as3ResourcePointer) :
    Option as3ResourcePointer :=
  ps.foldl (fun acc p => if isIngressServer p then some (ingressPtr p) else acc) d

theorem ingress_foldl_fst (ps : List Profile) :
    ∀ (acc : List as3ResourcePointer) (svc : as3Service),
    (ps.foldl ingressStep (acc, svc)).1 = acc ++ ingressClientPtrs ps := by
  induction ps with
  | nil => intro acc svc; simp [ingressClientPtrs]
  | cons p ps ih =>
    intro acc svc
    by_cases hp : p.partition = "Common"
    · by_cases hc : p.context = CustomProfileClient
      · simp only [List.foldl_cons, ingressStep]
        rw [if_pos hp, if_pos hc, ih]
        simp [ingressClientPtrs, isIngressClient, ingressPtr, hp, hc, List.filter_cons]
      · by_cases hs : p.context = CustomProfileServer
        · simp only [List.foldl_cons, ingressStep]
          rw [if_pos hp, if_neg hc, if_pos hs, ih]
          simp [ingressClientPtrs, isIngressClient, hc, List.filter_cons]
        · simp only [List.foldl_cons, ingressStep]
          rw [if_pos hp, if_neg hc, if_neg hs, ih]
          simp [ingressClientPtrs, isIngressClient, hc, List.filter_cons]
    · simp only [List.foldl_cons, ingressStep]
      rw [if_neg hp]
      rw [ih]
      simp [ingressClientPtrs, isIngressClient, hp, List.filter_cons]

theorem ingress_foldl_serverTLS (ps : List Profile) :
    ∀ (acc : List as3ResourcePointer) (svc : as3Service),
    ((ps.foldl ingressStep (acc, svc)).2).serverTLS =
      if ingressClientPtrs ps = [] then svc.serverTLS else acc ++ ingressClientPtrs ps := by
  induction ps with
  | nil => intro acc svc; simp [ingressClientPtrs]
  | cons p ps ih =>
    intro acc svc
    by_cases hp : p.partition = "Common"
    · by_cases hc : p.context = CustomProfileClient
      · simp only [List.foldl_cons, ingressStep]
        rw [if_pos hp, if_pos hc, ih]
        by_cases h0 : ingressClientPtrs ps = [] <;>
          simp [ingressClientPtrs, isIngressClient, ingressPtr, hp, hc, h0,
            List.filter_cons, updateVirtualToHTTPS]
      · by_cases hs : p.context = CustomProfileServer
        · simp only [List.foldl_cons, ingressStep]
          rw [if_pos hp, if_neg hc, if_pos hs, ih]
          simp [ingressClientPtrs, isIngressClient, hc, List.filter_cons, updateVirtualToHTTPS]
        · simp only [List.foldl_cons, ingressStep]
          rw [if_pos hp, if_neg hc, if_neg hs, ih]
          simp [ingressClientPtrs, isIngressClient, hc, List.filter_cons]
    · simp only [List.foldl_cons, ingressStep]
      rw [if_neg hp, ih]
      simp [ingressClientPtrs, isIngressClient, hp, List.filter_cons]

theorem ingress_foldl_protocol (ps : List Profile) :
    ∀ (acc : List as3ResourcePointer) (svc : as3Service),
    ((ps.foldl ingressStep (acc, svc)).2).protocol =
      if ps.any ingressEligible then HTTPS else svc.protocol := by
  induction ps with
  | nil => intro acc svc; simp
  | cons p ps ih =>
    intro acc svc
    by_cases hp : p.partition = "Common"
    · by_cases hc : p.context = CustomProfileClient
      · simp only [List.foldl_cons, ingressStep]
        rw [if_pos hp, if_pos hc, ih]
        simp [List.any_cons, ingressEligible, isIngressClient, hp, hc,
          updateVirtualToHTTPS, ite_self]
      · by_cases hs : p.context = CustomProfileServer
        · simp only [List.foldl_cons, ingressStep]
          rw [if_pos hp, if_neg hc, if_pos hs, ih]
          simp [List.any_cons, ingressEligible, isIngressServer, hp, hs,
            updateVirtualToHTTPS, ite_self]
        · simp only [List.foldl_cons, ingressStep]
          rw [if_pos hp, if_neg hc, if_neg hs, ih]
          simp [List.any_cons, ingressEligible, isIngressClient, isIngressServer, hc, hs]
    · simp only [List.foldl_cons, ingressStep]
      rw [if_neg hp, ih]
      simp [List.any_cons, ingressEligible, isIngressClient, isIngressServer, hp]

theorem ingress_foldl_clientTLS (ps : List Profile) :
    ∀ (acc : List as3ResourcePointer) (svc : as3Service),
    ((ps.foldl ingressStep (acc, svc)).2).clientTLS =
      ingressLastServer ps svc.clientTLS := by
  induction ps with
  | nil => intro acc svc; simp [ingressLastServer]
  | cons p ps ih =>
    intro acc svc
    by_cases hp : p.partition = "Common"
    · by_cases hc : p.context = CustomProfileClient
      · have hs : ¬p.context = CustomProfileServer := by
          rw [hc]; decide
        simp only [List.foldl_cons, ingressStep]
        rw [if_pos hp, if_pos hc, ih]
        simp [ingressLastServer, isIngressServer, hs, updateVirtualToHTTPS]
      · by_cases hs : p.context = CustomProfileServer
        · simp only [List.foldl_cons, ingressStep]
          rw [if_pos hp, if_neg hc, if_pos hs, ih]
          simp [ingressLastServer, isIngressServer, ingressPtr, hp, hs, updateVirtualToHTTPS]
        · simp only [List.foldl_cons, ingressStep]
          rw [if_pos hp, if_neg hc, if_neg hs, ih]
          simp [ingressLastServer, isIngressServer, hs]
    · simp only [List.foldl_cons, ingressStep]
      rw [if_neg hp, ih]
      simp [ingressLastServer, isIngressServer, hp]

/-- Client-context test of the Route TLS path (line 113-114). -/
def isRouteClient (kv : ProfileKey × String) : Bool :=
  decide (kv.1.context = CustomProfileClient)

/-- Server-context test of the Route TLS path (line 120). -/
def isRouteServer (kv : ProfileKey × String) : Bool :=
  decide (kv.1.context = CustomProfileServer)

/-- A Route-style map entry the TLS path acts on at all. -/
def routeEligible (kv : ProfileKey × String) : Bool :=
  isRouteClient kv || isRouteServer kv

/-- The resource pointer built for a Route-style map entry (lines 116, 122-124). -/
def routePtr (kv : ProfileKey × String) : as3ResourcePointer := ⟨kv.2⟩

/-- The ServerTLS list accumulated by the Route TLS path, in enumeration order. -/
def routeClientPtrs (l : List (ProfileKey × String)) : List as3ResourcePointer :=
  (l.filter isRouteClient).map routePtr

/-- Last-write-wins ClientTLS value of the Route TLS path. -/
def routeLastServer (l : List (ProfileKey × String)) (d : Option as3ResourcePointer) :
    Option as3ResourcePointer :=
  l.foldl (fun acc kv => if isRouteServer kv then some (routePtr kv) else acc) d

theorem route_foldl_serverTLS (l : List (ProfileKey × String)) :
    ∀ (acc : List as3ResourcePointer) (svc : as3Service),
    ((l.foldl routeStep (acc, svc)).2).serverTLS =
      if routeClientPtrs l = [] then svc.serverTLS else acc ++ routeClientPtrs l := by
  induction l with
  | nil => intro acc svc; simp [routeClientPtrs]
  | cons kv l ih =>
    intro acc svc
    by_cases hc : kv.1.context = CustomProfileClient
    · simp only [List.foldl_cons, routeStep]
      rw [if_pos hc, ih]
      by_cases h0 : routeClientPtrs l = [] <;>
        simp [routeClientPtrs, isRouteClient, routePtr, hc, h0,
          List.filter_cons, updateVirtualToHTTPS]
    · have h1 : routeClientPtrs (kv :: l) = routeClientPtrs l := by
        simp [routeClientPtrs, List.filter_cons, isRouteClient, hc]
      by_cases hs : kv.1.context = CustomProfileServer
      · simp only [List.foldl_cons, routeStep]
        rw [if_neg hc, if_pos hs, ih, h1]
        simp [updateVirtualToHTTPS]
      · simp only [List.foldl_cons, routeStep]
        rw [if_neg hc, if_neg hs, ih, h1]

theorem route_foldl_protocol (l : List (ProfileKey × String)) :
    ∀ (acc : List as3ResourcePointer) (svc : as3Service),
    ((l.foldl routeStep (acc, svc)).2).protocol =
      if l.any routeEligible then HTTPS else svc.protocol := by
  induction l with
  | nil => intro acc svc; simp
  | cons kv l ih =>
    intro acc svc
    by_cases hc : kv.1.context = CustomProfileClient
    · simp only [List.foldl_cons, routeStep]
      rw [if_pos hc, ih]
      simp [List.any_cons, routeEligible, isRouteClient, hc, updateVirtualToHTTPS, ite_self]
    · by_cases hs : kv.1.context = CustomProfileServer
      · simp only [List.foldl_cons, routeStep]
        rw [if_neg hc, if_pos hs, ih]
        simp [List.any_cons, routeEligible, isRouteServer, hs, updateVirtualToHTTPS, ite_self]
      · have h1 : (kv :: l).any routeEligible = l.any routeEligible := by
          simp [List.any_cons, routeEligible, isRouteClient, isRouteServer, hc, hs]
        simp only [List.foldl_cons, routeStep]
        rw [if_neg hc, if_neg hs, ih, h1]

theorem route_foldl_clientTLS (l : List (ProfileKey × String)) :
    ∀ (acc : List as3ResourcePointer) (svc : as3Service),
    ((l.foldl routeStep (acc, svc)).2).clientTLS =
      routeLastServer l svc.clientTLS := by
  induction l with
  | nil => intro acc svc; simp [routeLastServer]
  | cons kv l ih =>
    intro acc svc
    by_cases hc : kv.1.context = CustomProfileClient
    · have hs : ¬kv.1.context = CustomProfileServer := by
        rw [hc]; decide
      simp only [List.foldl_cons, routeStep]
      rw [if_pos hc, ih]
      simp [routeLastServer, isRouteServer, hs, updateVirtualToHTTPS]
    · by_cases hs : kv.1.context = CustomProfileServer
      · simp only [List.foldl_cons, routeStep]
        rw [if_neg hc, if_pos hs, ih]
        simp [routeLastServer, isRouteServer, routePtr, hs, updateVirtualToHTTPS]
      · simp only [List.foldl_cons, routeStep]
        rw [if_neg hc, if_neg hs, ih]
        simp [routeLastServer, isRouteServer, hs]

/-- C3, counterexample: an Ingress-style frontend whose only TLS association
entry is a client-context profile scoped to a partition other than the shared
one keeps protocol HTTP — the claim's conclusion (protocol HTTPS for any
frontend with at least one TLS association entry) fails at this input. -/
theorem c3_counterexample :
    (⟨[⟨"prof", "Other", CustomProfileClient⟩]⟩ : Virtual).profiles ≠ [] ∧
    (processIngressTLSProfilesForAS3 ⟨[⟨"prof", "Other", CustomProfileClient⟩]⟩
        ⟨HTTP, [], none⟩).protocol ≠ HTTPS := by
  constructor
  · decide
  · decide

/-- C3 (amended): a frontend with at least one TLS association entry that the
stage deems eligible (Ingress-style: shared-partition entry with client or
server context; Route-style: entry with client or server context) ends with
Service protocol HTTPS, on both paths; and the upgrade is one-way within a
pass — a Service already at HTTPS never leaves HTTPS on either path. -/
theorem c3_amended_https_upgrade :
    (∀ (v : Virtual) (svc : as3Service),
      (∃ p ∈ v.profiles, p.partition = "Common" ∧
        (p.context = CustomProfileClient ∨ p.context = CustomProfileServer)) →
      (processIngressTLSProfilesForAS3 v svc).protocol = HTTPS) ∧
    (∀ (md : MetaData) (svc : as3Service),
      (∃ kv ∈ md.routeProfs,
        kv.1.context = CustomProfileClient ∨ kv.1.context = CustomProfileServer) →
      (processRouteTLSProfilesForAS3 md svc).protocol = HTTPS) ∧
    (∀ (v : Virtual) (md : MetaData) (svc : as3Service), svc.protocol = HTTPS →
      (processIngressTLSProfilesForAS3 v svc).protocol = HTTPS ∧
      (processRouteTLSProfilesForAS3 md svc).protocol = HTTPS) := by
  refine ⟨?_, ?_, ?_⟩
  · rintro v svc ⟨p, hp, hcom, hctx⟩
    unfold processIngressTLSProfilesForAS3
    rw [ingress_foldl_protocol]
    have hany : v.profiles.any ingressEligible = true :=
      List.any_eq_true.mpr ⟨p, hp, by
        simp [ingressEligible, isIngressClient, isIngressServer, hcom]
        exact hctx⟩
    rw [hany]
    simp
  · rintro md svc ⟨kv, hkv, hctx⟩
    unfold processRouteTLSProfilesForAS3
    rw [route_foldl_protocol]
    have hany : md.routeProfs.any routeEligible = true :=
      List.any_eq_true.mpr ⟨kv, hkv, by
        simp [routeEligible, isRouteClient, isRouteServer]
        exact hctx⟩
    rw [hany]
    simp
  · intro v md svc hsvc
    constructor
    · unfold processIngressTLSProfilesForAS3
      rw [ingress_foldl_protocol]
      by_cases h : v.profiles.any ingressEligible <;> simp [h, hsvc]
    · unfold processRouteTLSProfilesForAS3
      rw [route_foldl_protocol]
      by_cases h : md.routeProfs.any routeEligible <;> simp [h, hsvc]

/-- C3 witness: the amended theorem applied at a concrete Ingress-style
frontend with one eligible client-context entry. -/
theorem c3_amended_https_upgrade_witness :
    (∃ p ∈ (⟨[⟨"p1", "Common", CustomProfileClient⟩]⟩ : Virtual).profiles,
      p.partition = "Common" ∧
      (p.context = CustomProfileClient ∨ p.context = CustomProfileServer)) ∧
    (processIngressTLSProfilesForAS3 ⟨[⟨"p1", "Common", CustomProfileClient⟩]⟩
        ⟨HTTP, [], none⟩).protocol = HTTPS :=
  ⟨by decide, c3_amended_https_upgrade.1 _ _ (by decide)⟩

/-- C8, counterexample: the Route-style TLS path reads one enumeration of the
frontend's context-to-reference map; two enumerations of the same map (lists
that are permutations of each other) yield different Service objects — the
ServerTLS lists come out in different orders — so the synthesis pass is not
deterministic over a resource-store snapshot alone, refuting the claim. -/
theorem c8_counterexample :
    ([(⟨"k1", CustomProfileClient⟩, "/Common/p1"),
      (⟨"k2", CustomProfileClient⟩, "/Common/p2")] : List (ProfileKey × String)).Perm
      [(⟨"k2", CustomProfileClient⟩, "/Common/p2"),
       (⟨"k1", CustomProfileClient⟩, "/Common/p1")] ∧
    processRouteTLSProfilesForAS3
        ⟨ResourceTypeRoute, [(⟨"k1", CustomProfileClient⟩, "/Common/p1"),
          (⟨"k2", CustomProfileClient⟩, "/Common/p2")]⟩ ⟨HTTP, [], none⟩ ≠
      processRouteTLSProfilesForAS3
        ⟨ResourceTypeRoute, [(⟨"k2", CustomProfileClient⟩, "/Common/p2"),
          (⟨"k1", CustomProfileClient⟩, "/Common/p1")]⟩ ⟨HTTP, [], none⟩ := by
  constructor
  · exact List.Perm.swap _ _ _
  · decide

/-- C8 (amended): the Route-style TLS path is deterministic up to the
enumeration order of the map: for two enumerations of the same snapshot (any
two permutations of the entry list) the resulting ServerTLS lists agree as
multisets and the protocol-upgrade decision is identical; the exact ServerTLS
order (and the last-write-wins ClientTLS pointer) depend on enumeration order. -/
theorem c8_amended_perm (md₁ md₂ : MetaData) (svc : as3Service)
    (h : md₁.routeProfs.Perm md₂.routeProfs) :
    ((processRouteTLSProfilesForAS3 md₁ svc).serverTLS).Perm
      ((processRouteTLSProfilesForAS3 md₂ svc).serverTLS) ∧
    (processRouteTLSProfilesForAS3 md₁ svc).protocol
      = (processRouteTLSProfilesForAS3 md₂ svc).protocol := by
  have hcp : (routeClientPtrs md₁.routeProfs).Perm (routeClientPtrs md₂.routeProfs) :=
    (h.filter isRouteClient).map routePtr
  constructor
  · unfold processRouteTLSProfilesForAS3
    rw [route_foldl_serverTLS, route_foldl_serverTLS]
    by_cases h0 : routeClientPtrs md₁.routeProfs = []
    · have h0' : routeClientPtrs md₂.routeProfs = [] := by
        have hx := hcp
        rw [h0] at hx
        exact hx.symm.eq_nil
      rw [if_pos h0, if_pos h0']
    · have h0' : ¬routeClientPtrs md₂.routeProfs = [] := by
        intro hh
        apply h0
        have hx := hcp
        rw [hh] at hx
        exact hx.eq_nil
      rw [if_neg h0, if_neg h0']
      simpa using hcp
  · unfold processRouteTLSProfilesForAS3
    rw [route_foldl_protocol, route_foldl_protocol]
    have hany : md₁.routeProfs.any routeEligible = md₂.routeProfs.any routeEligible := by
      rw [Bool.eq_iff_iff, List.any_eq_true, List.any_eq_true]
      constructor
      · rintro ⟨x, hx, hpx⟩
        exact ⟨x, h.subset hx, hpx⟩
      · rintro ⟨x, hx, hpx⟩
        exact ⟨x, h.symm.subset hx, hpx⟩
    rw [hany]

/-- C8 witness: the amended theorem applied to two concrete enumerations of
the same two-entry map. -/
theorem c8_amended_perm_witness :
    ((⟨ResourceTypeRoute, [(⟨"k1", CustomProfileClient⟩, "/Common/p1"),
        (⟨"k2", CustomProfileServer⟩, "/Common/p2")]⟩ : MetaData)).routeProfs.Perm
      ((⟨ResourceTypeRoute, [(⟨"k2", CustomProfileServer⟩, "/Common/p2"),
        (⟨"k1", CustomProfileClient⟩, "/Common/p1")]⟩ : MetaData)).routeProfs ∧
    ((processRouteTLSProfilesForAS3
        ⟨ResourceTypeRoute, [(⟨"k1", CustomProfileClient⟩, "/Common/p1"),
          (⟨"k2", CustomProfileServer⟩, "/Common/p2")]⟩ ⟨HTTP, [], none⟩).serverTLS).Perm
      ((processRouteTLSProfilesForAS3
        ⟨ResourceTypeRoute, [(⟨"k2", CustomProfileServer⟩, "/Common/p2"),
          (⟨"k1", CustomProfileClient⟩, "/Common/p1")]⟩ ⟨HTTP, [], none⟩).serverTLS) ∧
    (processRouteTLSProfilesForAS3
        ⟨ResourceTypeRoute, [(⟨"k1", CustomProfileClient⟩, "/Common/p1"),
          (⟨"k2", CustomProfileServer⟩, "/Common/p2")]⟩ ⟨HTTP, [], none⟩).protocol
      = (processRouteTLSProfilesForAS3
        ⟨ResourceTypeRoute, [(⟨"k2", CustomProfileServer⟩, "/Common/p2"),
          (⟨"k1", CustomProfileClient⟩, "/Common/p1")]⟩ ⟨HTTP, [], none⟩).protocol :=
  ⟨List.Perm.swap _ _ _,
   (c8_amended_perm _ _ _ (List.Perm.swap _ _ _)).1,
   (c8_amended_perm _ _ _ (List.Perm.swap _ _ _)).2⟩

/-- C9: for an Ingress-style frontend, starting from a Service with no
ServerTLS entries, the TLS stage leaves ServerTLS equal to the shared-partition
client-context entries of the profile list, converted to pointers, in profile-
list order — exactly N entries for N such profiles, other partitions and
contexts contributing nothing. -/
theorem c9_ingress_serverTLS_order (v : Virtual) (svc : as3Service)
    (h : svc.serverTLS = []) :
    (processIngressTLSProfilesForAS3 v svc).serverTLS
      = (v.profiles.filter isIngressClient).map ingressPtr := by
  unfold processIngressTLSProfilesForAS3
  rw [ingress_foldl_serverTLS]
  by_cases h0 : ingressClientPtrs v.profiles = []
  · rw [if_pos h0, h]
    exact h0.symm
  · rw [if_neg h0]
    simp [ingressClientPtrs]

/-- C9 witness: the theorem applied at a concrete profile list with two
shared-partition client entries, one foreign-partition client entry and one
server entry. -/
theorem c9_ingress_serverTLS_order_witness :
    ((⟨HTTP, [], none⟩ : as3Service).serverTLS = []) ∧
    (processIngressTLSProfilesForAS3
        ⟨[⟨"p1", "Common", CustomProfileClient⟩, ⟨"p2", "Other", CustomProfileClient⟩,
          ⟨"p3", "Common", CustomProfileServer⟩, ⟨"p4", "Common", CustomProfileClient⟩]⟩
        ⟨HTTP, [], none⟩).serverTLS
      = ((⟨[⟨"p1", "Common", CustomProfileClient⟩, ⟨"p2", "Other", CustomProfileClient⟩,
          ⟨"p3", "Common", CustomProfileServer⟩, ⟨"p4", "Common", CustomProfileClient⟩]⟩ :
            Virtual).profiles.filter isIngressClient).map ingressPtr :=
  ⟨rfl, c9_ingress_serverTLS_order _ _ rfl⟩

/-- C10: a shared-partition profile entry whose context is neither client-side
nor server-side has no effect at all on the Ingress TLS path — deleting it
from the profile list leaves the whole resulting Service unchanged (so no
ServerTLS entry, no ClientTLS, no protocol change) — and the Ingress item of
the profile-dispatch stage emits no warning. -/
theorem c10_other_context_no_effect (ps₁ ps₂ : List Profile) (p : Profile)
    (svc : as3Service) (rp : List (ProfileKey × String))
    (h1 : p.partition = "Common") (h2 : p.context ≠ CustomProfileClient)
    (h3 : p.context ≠ CustomProfileServer) :
    processIngressTLSProfilesForAS3 ⟨ps₁ ++ p :: ps₂⟩ svc
      = processIngressTLSProfilesForAS3 ⟨ps₁ ++ ps₂⟩ svc ∧
    (processProfilesItem ⟨⟨ResourceTypeIngress, rp⟩, ⟨ps₁ ++ p :: ps₂⟩⟩ (some svc)).2 = [] := by
  constructor
  · unfold processIngressTLSProfilesForAS3
    have hstep : ∀ acc : List as3ResourcePointer × as3Service, ingressStep acc p = acc := by
      intro acc
      unfold ingressStep
      rw [if_pos h1, if_neg h2, if_neg h3]
    have hsplit : ps₁ ++ p :: ps₂ = (ps₁ ++ [p]) ++ ps₂ := by simp
    rw [show (⟨ps₁ ++ p :: ps₂⟩ : Virtual).profiles = ps₁ ++ p :: ps₂ from rfl,
      show (⟨ps₁ ++ ps₂⟩ : Virtual).profiles = ps₁ ++ ps₂ from rfl, hsplit,
      List.foldl_append, List.foldl_append, List.foldl_append]
    simp [hstep]
  · simp [processProfilesItem, ResourceTypeIngress, ResourceTypeRoute]

/-- C10 witness: the theorem applied at a concrete profile list holding one
shared-partition entry with an unrecognised context. -/
theorem c10_other_context_no_effect_witness :
    (("Common" : String) = "Common" ∧ ("weird" : String) ≠ CustomProfileClient ∧
      ("weird" : String) ≠ CustomProfileServer) ∧
    processIngressTLSProfilesForAS3
        ⟨[⟨"a", "Common", CustomProfileClient⟩, ⟨"x", "Common", "weird"⟩]⟩ ⟨HTTP, [], none⟩
      = processIngressTLSProfilesForAS3 ⟨[⟨"a", "Common", CustomProfileClient⟩]⟩
          ⟨HTTP, [], none⟩ ∧
    (processProfilesItem
        ⟨⟨ResourceTypeIngress, []⟩,
          ⟨[⟨"a", "Common", CustomProfileClient⟩, ⟨"x", "Common", "weird"⟩]⟩⟩
        (some ⟨HTTP, [], none⟩)).2 = [] :=
  ⟨⟨rfl, by decide, by decide⟩,
   (c10_other_context_no_effect [⟨"a", "Common", CustomProfileClient⟩] [] ⟨"x", "Common", "weird"⟩
      ⟨HTTP, [], none⟩ [] rfl (by decide) (by decide)).1,
   (c10_other_context_no_effect [⟨"a", "Common", CustomProfileClient⟩] [] ⟨"x", "Common", "weird"⟩
      ⟨HTTP, [], none⟩ [] rfl (by decide) (by decide)).2⟩

/-- An exposure record the dispatch routes to the secure policy (cases HTTPS
and HTTP-and-HTTPS of the switch). -/
def relevantSecure (e : String × F5Resource) : Bool :=
  decide (e.2.virtual = HTTPS ∨ e.2.virtual = HTTPANDS)

/-- An exposure record the dispatch routes to the insecure policy (cases HTTP
and, via fallthrough, HTTP-and-HTTPS). -/
def relevantInsecure (e : String × F5Resource) : Bool :=
  decide (e.2.virtual = HTTP ∨ e.2.virtual = HTTPANDS)

/-- The cumulative effect on one policy of the records routed to it. -/
def foldEnables (rs : List (String × F5Resource)) (ep : as3EndpointPolicy) :
    as3EndpointPolicy :=
  rs.foldl (fun e entry => updatePolicyWithWAF e entry.1 entry.2) ep

/-- Effect of one exposure record on one rule. -/
def ruleEnableStep (r : as3Rule) (entry : String × F5Resource) : as3Rule :=
  if r.name = entry.1 then { r with actions := r.actions ++ [wafEnableAction] } else r

/-- Effect of a record sequence on one rule. -/
def ruleEnables (rs : List (String × F5Resource)) (r : as3Rule) : as3Rule :=
  rs.foldl ruleEnableStep r

/-- Number of WAF-typed actions a rule carries. -/
def wafCount (r : as3Rule) : Nat :=
  (r.actions.filter fun a => a.actionKind = "waf").length

theorem wafStep_char (st : WAFState) (e : String × F5Resource) :
    wafStep st e =
      { isSecureWAF := st.isSecureWAF || (relevantSecure e && st.secureEP.isSome),
        isInsecureWAF := st.isInsecureWAF || (relevantInsecure e && st.insecureEP.isSome),
        secureEP :=
          if relevantSecure e then
            st.secureEP.map (fun ep => updatePolicyWithWAF ep e.1 e.2)
          else st.secureEP,
        insecureEP :=
          if relevantInsecure e then
            st.insecureEP.map (fun ep => updatePolicyWithWAF ep e.1 e.2)
          else st.insecureEP } := by
  unfold wafStep wafSecureUpdate wafInsecureUpdate relevantSecure relevantInsecure
  obtain ⟨b1, b2, os, oi⟩ := st
  by_cases h1 : e.2.virtual = "https" <;> by_cases h2 : e.2.virtual = "httpands" <;>
    by_cases h3 : e.2.virtual = "http" <;>
      rcases os with _ | ep <;> rcases oi with _ | ep' <;>
        simp [h1, h2, h3, HTTP, HTTPS, HTTPANDS]

theorem foldEnables_nil_fun : foldEnables [] = id := rfl

theorem foldEnables_comp (e : String × F5Resource) (rs : List (String × F5Resource)) :
    foldEnables rs ∘ (fun ep => updatePolicyWithWAF ep e.1 e.2) = foldEnables (e :: rs) := rfl

theorem bool_or_and_absorb : ∀ b s y : Bool, ((b || s) || (y && s)) = (b || s) := by decide

theorem wafFoldl_char (l : List (String × F5Resource)) :
    ∀ st : WAFState,
    l.foldl wafStep st =
      { isSecureWAF := st.isSecureWAF || (l.any relevantSecure && st.secureEP.isSome),
        isInsecureWAF := st.isInsecureWAF || (l.any relevantInsecure && st.insecureEP.isSome),
        secureEP := st.secureEP.map (foldEnables (l.filter relevantSecure)),
        insecureEP := st.insecureEP.map (foldEnables (l.filter relevantInsecure)) } := by
  induction l with
  | nil =>
    intro st
    simp [foldEnables_nil_fun, Option.map_id]
  | cons e l ih =>
    intro st
    rw [List.foldl_cons, wafStep_char, ih]
    by_cases hs : relevantSecure e = true <;> by_cases hi : relevantInsecure e = true <;>
      simp [List.any_cons, List.filter_cons, hs, hi, Option.isSome_map, Option.map_map,
        foldEnables_comp, bool_or_and_absorb]

theorem processF5_char (intF5Res : List (List (String × F5Resource)))
    (sep iep : as3EndpointPolicy) :
    processF5ResourcesForAS3 intF5Res (some sep) (some iep) =
      ({ isSecureWAF := intF5Res.flatten.any relevantSecure,
         isInsecureWAF := intF5Res.flatten.any relevantInsecure,
         secureEP := some (if intF5Res.flatten.any relevantSecure then
             addWAFDisableAction
               ⟨(foldEnables (intF5Res.flatten.filter relevantSecure) sep).rules ++
                 [wafDisableRule]⟩
           else foldEnables (intF5Res.flatten.filter relevantSecure) sep),
         insecureEP := some (if intF5Res.flatten.any relevantInsecure then
             addWAFDisableAction
               ⟨(foldEnables (intF5Res.flatten.filter relevantInsecure) iep).rules ++
                 [wafDisableRule]⟩
           else foldEnables (intF5Res.flatten.filter relevantInsecure) iep) }, []) := by
  simp only [processF5ResourcesForAS3]
  rw [← List.foldl_flatten wafStep ⟨false, false, some sep, some iep⟩ intF5Res]
  rw [wafFoldl_char]
  cases hA : intF5Res.flatten.any relevantSecure <;>
    cases hB : intF5Res.flatten.any relevantInsecure <;>
      simp [hA, hB]

theorem updatePolicyWithWAF_eq_map (ep : as3EndpointPolicy) (e : String × F5Resource) :
    updatePolicyWithWAF ep e.1 e.2 = ⟨ep.rules.map fun r => ruleEnableStep r e⟩ := rfl

theorem foldEnables_eq_map (rs : List (String × F5Resource)) :
    ∀ ep : as3EndpointPolicy, foldEnables rs ep = ⟨ep.rules.map (ruleEnables rs)⟩ := by
  induction rs with
  | nil =>
    intro ep
    cases ep
    rw [show ruleEnables ([] : List (String × F5Resource)) = id from rfl, List.map_id]
    rfl
  | cons e rs ih =>
    intro ep
    have h1 : foldEnables (e :: rs) ep = foldEnables rs (updatePolicyWithWAF ep e.1 e.2) := rfl
    rw [h1, updatePolicyWithWAF_eq_map, ih]
    simp only [List.map_map]
    rfl

theorem ruleEnableStep_name (r : as3Rule) (e : String × F5Resource) :
    (ruleEnableStep r e).name = r.name := by
  unfold ruleEnableStep
  split <;> rfl

theorem ruleEnables_name (rs : List (String × F5Resource)) :
    ∀ r : as3Rule, (ruleEnables rs r).name = r.name := by
  induction rs with
  | nil => intro r; rfl
  | cons e rs ih =>
    intro r
    have h1 : ruleEnables (e :: rs) r = ruleEnables rs (ruleEnableStep r e) := rfl
    rw [h1, ih, ruleEnableStep_name]

theorem wafCount_append_enable (r : as3Rule) :
    wafCount { r with actions := r.actions ++ [wafEnableAction] } = wafCount r + 1 := by
  simp [wafCount, List.filter_append, wafEnableAction]

theorem ruleEnables_wafCount (rs : List (String × F5Resource)) :
    ∀ r : as3Rule,
    wafCount (ruleEnables rs r) = wafCount r + (rs.map Prod.fst).count r.name := by
  induction rs with
  | nil => intro r; simp [ruleEnables]
  | cons e rs ih =>
    intro r
    have h1 : ruleEnables (e :: rs) r = ruleEnables rs (ruleEnableStep r e) := rfl
    rw [h1, ih, ruleEnableStep_name]
    by_cases hn : r.name = e.1
    · have hstep : ruleEnableStep r e = { r with actions := r.actions ++ [wafEnableAction] } := by
        unfold ruleEnableStep
        rw [if_pos hn]
      rw [hstep, wafCount_append_enable]
      simp [List.count_cons, hn, beq_iff_eq]
      omega
    · have hstep : ruleEnableStep r e = r := by
        unfold ruleEnableStep
        rw [if_neg hn]
      have hn' : ¬(e.1 = r.name) := fun h => hn h.symm
      rw [hstep]
      simp [List.count_cons, hn', beq_iff_eq]

theorem wafCount_eq_zero_iff (r : as3Rule) : wafCount r = 0 ↔ isWAFRule r = false := by
  unfold wafCount isWAFRule
  rw [List.length_eq_zero, List.filter_eq_nil_iff, List.any_eq_false]

theorem addDisable_wafCount (r : as3Rule) :
    wafCount (addDisable r) = if wafCount r = 0 then 1 else wafCount r := by
  unfold addDisable
  by_cases h : isWAFRule r
  · rw [if_pos h]
    have h0 : ¬wafCount r = 0 := by
      rw [wafCount_eq_zero_iff]
      simp [h]
    rw [if_neg h0]
  · rw [if_neg h]
    have h0 : wafCount r = 0 := by
      rw [wafCount_eq_zero_iff]
      simpa using h
    have hadd : wafCount { r with actions := r.actions ++ [wafDisableAction] }
        = wafCount r + 1 := by
      simp [wafCount, List.filter_append, wafDisableAction]
    rw [hadd, h0, if_pos rfl]

theorem addDisable_name (r : as3Rule) : (addDisable r).name = r.name := by
  unfold addDisable
  split <;> rfl

theorem addDisable_trailing : addDisable wafDisableRule = wafDisableRule := by decide

theorem finalize_rules (ep₀ : as3EndpointPolicy) (rs : List (String × F5Resource)) :
    (addWAFDisableAction ⟨(foldEnables rs ep₀).rules ++ [wafDisableRule]⟩).rules
      = (ep₀.rules.map fun r => addDisable (ruleEnables rs r)) ++ [wafDisableRule] := by
  rw [foldEnables_eq_map]
  simp [addWAFDisableAction, List.map_append, List.map_map, addDisable_trailing]

theorem finalize_exactly_one (ep₀ : as3EndpointPolicy) (rs : List (String × F5Resource))
    (h0 : ∀ r ∈ ep₀.rules, wafCount r = 0)
    (h1 : ∀ r ∈ ep₀.rules, ((rs.map Prod.fst).count r.name) ≤ 1) :
    ∀ r ∈ (addWAFDisableAction ⟨(foldEnables rs ep₀).rules ++ [wafDisableRule]⟩).rules,
      wafCount r = 1 := by
  intro r hr
  rw [finalize_rules] at hr
  rcases List.mem_append.mp hr with hmem | hmem
  · rcases List.mem_map.mp hmem with ⟨r₀, hr₀, hEq⟩
    rw [← hEq, addDisable_wafCount, ruleEnables_wafCount, h0 r₀ hr₀]
    have hc := h1 r₀ hr₀
    rcases Nat.le_one_iff_eq_zero_or_eq_one.mp hc with h | h <;> simp [h]
  · rw [List.mem_singleton.mp hmem]
    decide

/-- C1: after the WAF injection stage, for every policy marked touched (secure
or insecure), every rule of that policy — the synthetic trailing rule included
— carries exactly one WAF action; preconditions of the pipeline: the rules the
earlier stages built carry no WAF action yet, and the exposure records routed
to a policy name each of its rules at most once. -/
theorem c1_touched_policy_exactly_one_waf
    (intF5Res : List (List (String × F5Resource))) (sep iep : as3EndpointPolicy)
    (h0s : ∀ r ∈ sep.rules, wafCount r = 0)
    (h1s : ∀ r ∈ sep.rules,
      ((intF5Res.flatten.filter relevantSecure).map Prod.fst).count r.name ≤ 1)
    (h0i : ∀ r ∈ iep.rules, wafCount r = 0)
    (h1i : ∀ r ∈ iep.rules,
      ((intF5Res.flatten.filter relevantInsecure).map Prod.fst).count r.name ≤ 1) :
    (∀ ep, (processF5ResourcesForAS3 intF5Res (some sep) (some iep)).1.isSecureWAF = true →
      (processF5ResourcesForAS3 intF5Res (some sep) (some iep)).1.secureEP = some ep →
      ∀ r ∈ ep.rules, wafCount r = 1) ∧
    (∀ ep, (processF5ResourcesForAS3 intF5Res (some sep) (some iep)).1.isInsecureWAF = true →
      (processF5ResourcesForAS3 intF5Res (some sep) (some iep)).1.insecureEP = some ep →
      ∀ r ∈ ep.rules, wafCount r = 1) := by
  rw [processF5_char]
  constructor
  · intro ep hflag hep
    dsimp only at hflag hep
    rw [if_pos hflag] at hep
    obtain rfl := Option.some.inj hep
    exact finalize_exactly_one sep _ h0s h1s
  · intro ep hflag hep
    dsimp only at hflag hep
    rw [if_pos hflag] at hep
    obtain rfl := Option.some.inj hep
    exact finalize_exactly_one iep _ h0i h1i

/-- C1 witness: the theorem applied at one HTTPS and one HTTP exposure record
against concrete secure and insecure policies. -/
theorem c1_touched_policy_exactly_one_waf_witness :
    (∀ r ∈ (⟨[⟨"r1", []⟩, ⟨"r0", []⟩]⟩ : as3EndpointPolicy).rules, wafCount r = 0) ∧
    (∀ r ∈ (⟨[⟨"r1", []⟩, ⟨"r0", []⟩]⟩ : as3EndpointPolicy).rules,
      ((([[("r1", ⟨HTTPS⟩), ("r2", ⟨HTTP⟩)]] :
          List (List (String × F5Resource))).flatten.filter relevantSecure).map
            Prod.fst).count r.name ≤ 1) ∧
    (∀ r ∈ (⟨[⟨"r2", []⟩]⟩ : as3EndpointPolicy).rules, wafCount r = 0) ∧
    (∀ r ∈ (⟨[⟨"r2", []⟩]⟩ : as3EndpointPolicy).rules,
      ((([[("r1", ⟨HTTPS⟩), ("r2", ⟨HTTP⟩)]] :
          List (List (String × F5Resource))).flatten.filter relevantInsecure).map
            Prod.fst).count r.name ≤ 1) ∧
    ((∀ ep, (processF5ResourcesForAS3 [[("r1", ⟨HTTPS⟩), ("r2", ⟨HTTP⟩)]]
        (some ⟨[⟨"r1", []⟩, ⟨"r0", []⟩]⟩) (some ⟨[⟨"r2", []⟩]⟩)).1.isSecureWAF = true →
      (processF5ResourcesForAS3 [[("r1", ⟨HTTPS⟩), ("r2", ⟨HTTP⟩)]]
        (some ⟨[⟨"r1", []⟩, ⟨"r0", []⟩]⟩) (some ⟨[⟨"r2", []⟩]⟩)).1.secureEP = some ep →
      ∀ r ∈ ep.rules, wafCount r = 1) ∧
    (∀ ep, (processF5ResourcesForAS3 [[("r1", ⟨HTTPS⟩), ("r2", ⟨HTTP⟩)]]
        (some ⟨[⟨"r1", []⟩, ⟨"r0", []⟩]⟩) (some ⟨[⟨"r2", []⟩]⟩)).1.isInsecureWAF = true →
      (processF5ResourcesForAS3 [[("r1", ⟨HTTPS⟩), ("r2", ⟨HTTP⟩)]]
        (some ⟨[⟨"r1", []⟩, ⟨"r0", []⟩]⟩) (some ⟨[⟨"r2", []⟩]⟩)).1.insecureEP = some ep →
      ∀ r ∈ ep.rules, wafCount r = 1)) :=
  ⟨by decide, by decide, by decide, by decide,
   c1_touched_policy_exactly_one_waf _ _ _ (by decide) (by decide) (by decide) (by decide)⟩

/-- C2, counterexample: an exposure record naming a rule absent from the
secure policy is not a no-op for the pass: being the only record, it still
marks the policy touched, so the finalization appends the trailing rule and a
WAF-disable action — the policy's state changes because of that record. -/
theorem c2_counterexample :
    ("rX" ∉ ((⟨[⟨"r1", []⟩]⟩ : as3EndpointPolicy).rules.map as3Rule.name)) ∧
    (processF5ResourcesForAS3 [[("rX", ⟨HTTPS⟩)]] (some ⟨[⟨"r1", []⟩]⟩) none).1.secureEP
      ≠ some ⟨[⟨"r1", []⟩]⟩ := by
  constructor
  · decide
  · decide

/-- C2 (amended): a record naming a rule absent from the targeted policy
modifies no rule and creates none during dispatch — the per-record policy
update is the identity — but the record still sets the touched flag of the
policy, so the pass may still append the trailing rule and disable actions to
it at finalization. -/
theorem c2_amended_dispatch_noop (ep : as3EndpointPolicy) (rec : String)
    (res : F5Resource) (b1 b2 : Bool) (oi : Option as3EndpointPolicy)
    (h : rec ∉ ep.rules.map as3Rule.name) :
    updatePolicyWithWAF ep rec res = ep ∧
    wafStep ⟨b1, b2, some ep, oi⟩ (rec, ⟨HTTPS⟩) = ⟨true, b2, some ep, oi⟩ := by
  have hupd : ∀ res' : F5Resource, updatePolicyWithWAF ep rec res' = ep := by
    intro res'
    unfold updatePolicyWithWAF
    have hid : ∀ r ∈ ep.rules,
        (if r.name = rec then { r with actions := r.actions ++ [wafEnableAction] } else r)
          = r := by
      intro r hr
      rw [if_neg]
      intro hne
      exact h (by rw [← hne]; exact List.mem_map_of_mem as3Rule.name hr)
    rw [List.map_congr_left hid]
    simp
  refine ⟨hupd res, ?_⟩
  unfold wafStep wafSecureUpdate
  simp [HTTP, HTTPS, HTTPANDS, hupd]

/-- C2 witness: the amended theorem applied at a one-rule policy and a record
naming a different rule. -/
theorem c2_amended_dispatch_noop_witness :
    ("rX" ∉ ((⟨[⟨"r1", []⟩]⟩ : as3EndpointPolicy).rules.map as3Rule.name)) ∧
    (updatePolicyWithWAF ⟨[⟨"r1", []⟩]⟩ "rX" ⟨HTTPS⟩ = ⟨[⟨"r1", []⟩]⟩ ∧
      wafStep ⟨false, false, some ⟨[⟨"r1", []⟩]⟩, none⟩ ("rX", ⟨HTTPS⟩)
        = ⟨true, false, some ⟨[⟨"r1", []⟩]⟩, none⟩) :=
  ⟨by decide, c2_amended_dispatch_noop _ _ _ _ _ _ (by decide)⟩

/-- C4: for each policy marked touched in one pass, the synthetic trailing
WAF-disable rule is appended exactly once and last — the output's rule-name
list is the input's followed by the trailing name — and the trailing rule
consists of exactly the drop-on-request action followed by the WAF-disable
action. -/
theorem c4_trailing_rule_shape (intF5Res : List (List (String × F5Resource)))
    (sep iep : as3EndpointPolicy) :
    (∀ ep, (processF5ResourcesForAS3 intF5Res (some sep) (some iep)).1.isSecureWAF = true →
      (processF5ResourcesForAS3 intF5Res (some sep) (some iep)).1.secureEP = some ep →
      ep.rules.map as3Rule.name
          = sep.rules.map as3Rule.name ++ ["openshift_route_waf_disable"] ∧
        ep.rules.getLast?
          = some ⟨"openshift_route_waf_disable", [wafDropAction, wafDisableAction]⟩) ∧
    (∀ ep, (processF5ResourcesForAS3 intF5Res (some sep) (some iep)).1.isInsecureWAF = true →
      (processF5ResourcesForAS3 intF5Res (some sep) (some iep)).1.insecureEP = some ep →
      ep.rules.map as3Rule.name
          = iep.rules.map as3Rule.name ++ ["openshift_route_waf_disable"] ∧
        ep.rules.getLast?
          = some ⟨"openshift_route_waf_disable", [wafDropAction, wafDisableAction]⟩) := by
  rw [processF5_char]
  constructor
  · intro ep hflag hep
    dsimp only at hflag hep
    rw [if_pos hflag] at hep
    obtain rfl := Option.some.inj hep
    constructor
    · rw [finalize_rules, List.map_append, List.map_map]
      have hnm : ∀ r ∈ sep.rules,
          (as3Rule.name ∘ fun r => addDisable (ruleEnables
            (intF5Res.flatten.filter relevantSecure) r)) r = as3Rule.name r := by
        intro r hr
        simp [Function.comp, addDisable_name, ruleEnables_name]
      rw [List.map_congr_left hnm]
      rfl
    · rw [finalize_rules, List.getLast?_concat]
      rfl
  · intro ep hflag hep
    dsimp only at hflag hep
    rw [if_pos hflag] at hep
    obtain rfl := Option.some.inj hep
    constructor
    · rw [finalize_rules, List.map_append, List.map_map]
      have hnm : ∀ r ∈ iep.rules,
          (as3Rule.name ∘ fun r => addDisable (ruleEnables
            (intF5Res.flatten.filter relevantInsecure) r)) r = as3Rule.name r := by
        intro r hr
        simp [Function.comp, addDisable_name, ruleEnables_name]
      rw [List.map_congr_left hnm]
      rfl
    · rw [finalize_rules, List.getLast?_concat]
      rfl

/-- C4 witness: the theorem applied at one HTTP-and-HTTPS record touching both
concrete policies. -/
theorem c4_trailing_rule_shape_witness :
    ((processF5ResourcesForAS3 [[("r1", ⟨HTTPANDS⟩)]]
        (some ⟨[⟨"r1", []⟩]⟩) (some ⟨[⟨"r2", []⟩]⟩)).1.isSecureWAF = true) ∧
    (∀ ep, (processF5ResourcesForAS3 [[("r1", ⟨HTTPANDS⟩)]]
        (some ⟨[⟨"r1", []⟩]⟩) (some ⟨[⟨"r2", []⟩]⟩)).1.isSecureWAF = true →
      (processF5ResourcesForAS3 [[("r1", ⟨HTTPANDS⟩)]]
        (some ⟨[⟨"r1", []⟩]⟩) (some ⟨[⟨"r2", []⟩]⟩)).1.secureEP = some ep →
      ep.rules.map as3Rule.name
          = (⟨[⟨"r1", []⟩]⟩ : as3EndpointPolicy).rules.map as3Rule.name ++
              ["openshift_route_waf_disable"] ∧
        ep.rules.getLast?
          = some ⟨"openshift_route_waf_disable", [wafDropAction, wafDisableAction]⟩) :=
  ⟨by decide,
   (c4_trailing_rule_shape [[("r1", ⟨HTTPANDS⟩)]] ⟨[⟨"r1", []⟩]⟩ ⟨[⟨"r2", []⟩]⟩).1⟩

/-- C5: an HTTP-and-HTTPS exposure record triggers the HTTPS handling and,
through the intentional fallthrough, also the HTTP handling of the same
record: its dispatch step equals the HTTPS step followed by the HTTP step, and
with both policies present it updates both and marks both touched. -/
theorem c5_fallthrough_both (st : WAFState) (rec : String) :
    wafStep st (rec, ⟨HTTPANDS⟩) = wafStep (wafStep st (rec, ⟨HTTPS⟩)) (rec, ⟨HTTP⟩) ∧
    ∀ (b1 b2 : Bool) (sep iep : as3EndpointPolicy),
      wafStep ⟨b1, b2, some sep, some iep⟩ (rec, ⟨HTTPANDS⟩)
        = ⟨true, true, some (updatePolicyWithWAF sep rec ⟨HTTPANDS⟩),
            some (updatePolicyWithWAF iep rec ⟨HTTPANDS⟩)⟩ := by
  constructor
  · unfold wafStep wafSecureUpdate wafInsecureUpdate
    simp [HTTP, HTTPS, HTTPANDS, updatePolicyWithWAF]
  · intro b1 b2 sep iep
    unfold wafStep wafSecureUpdate wafInsecureUpdate
    simp [HTTP, HTTPS, HTTPANDS, updatePolicyWithWAF]

/-- C6, counterexample: an exposure record whose exposure value is none of
HTTP, HTTPS, HTTP-and-HTTPS is skipped — the pass continues and both policies
are untouched — but, contrary to the claim, the WAF stage emits no diagnostic
for it: the stage's warning stream is empty (the dispatch switch has no
default case and no logging call). -/
theorem c6_counterexample :
    processF5ResourcesForAS3 [[("r1", ⟨"tcp"⟩)]]
        (some ⟨[⟨"r1", []⟩]⟩) (some ⟨[⟨"r2", []⟩]⟩)
      = (⟨false, false, some ⟨[⟨"r1", []⟩]⟩, some ⟨[⟨"r2", []⟩]⟩⟩, []) := by
  decide

/-- C6 (amended): an unsupported input shape skips only the offending item and
the pass continues; the TLS stage emits a diagnostic for an unknown resource
kind (when the Service object exists), while the WAF stage skips an unknown
exposure value silently, with no diagnostic. -/
theorem c6_amended_skip_unsupported (cfg : ResourceConfig) (svc : as3Service)
    (st : WAFState) (rec : String) (res : F5Resource)
    (hk1 : cfg.metaData.resourceType ≠ ResourceTypeRoute)
    (hk2 : cfg.metaData.resourceType ≠ ResourceTypeIngress)
    (hv1 : res.virtual ≠ HTTP) (hv2 : res.virtual ≠ HTTPS) (hv3 : res.virtual ≠ HTTPANDS) :
    processProfilesItem cfg (some svc)
      = (some svc, ["Unsupported resource type: " ++ cfg.metaData.resourceType]) ∧
    wafStep st (rec, res) = st := by
  constructor
  · simp [processProfilesItem, hk1, hk2]
  · unfold wafStep
    rw [if_neg hv2, if_neg hv3, if_neg hv1]

/-- C6 witness: the amended theorem applied at a concrete unknown resource
kind and a concrete unknown exposure value. -/
theorem c6_amended_skip_unsupported_witness :
    (("tcpkind" : String) ≠ ResourceTypeRoute ∧ ("tcpkind" : String) ≠ ResourceTypeIngress ∧
      ("tcp" : String) ≠ HTTP ∧ ("tcp" : String) ≠ HTTPS ∧ ("tcp" : String) ≠ HTTPANDS) ∧
    processProfilesItem ⟨⟨"tcpkind", []⟩, ⟨[]⟩⟩ (some ⟨HTTP, [], none⟩)
      = (some ⟨HTTP, [], none⟩, ["Unsupported resource type: " ++ "tcpkind"]) ∧
    wafStep ⟨false, false, none, none⟩ ("r", ⟨"tcp"⟩) = ⟨false, false, none, none⟩ :=
  ⟨⟨by decide, by decide, by decide, by decide, by decide⟩,
   (c6_amended_skip_unsupported ⟨⟨"tcpkind", []⟩, ⟨[]⟩⟩ ⟨HTTP, [], none⟩
      ⟨false, false, none, none⟩ "r" ⟨"tcp"⟩
      (by decide) (by decide) (by decide) (by decide) (by decide)).1,
   (c6_amended_skip_unsupported ⟨⟨"tcpkind", []⟩, ⟨[]⟩⟩ ⟨HTTP, [], none⟩
      ⟨false, false, none, none⟩ "r" ⟨"tcp"⟩
      (by decide) (by decide) (by decide) (by decide) (by decide)).2⟩

/-- C7: for a pass whose declaration targets an empty default partition and
that carries a non-empty override payload, the assembly step discards the
override: the assembled output's override payload is empty. -/
theorem c7_override_suppression (cfg : AS3Config)
    (h1 : cfg.defaultPartition = "") (h2 : cfg.overrideConfigmap.data ≠ "") :
    (prepareAS3ResourceConfig cfg).overrideConfigmap.data = "" := by
  unfold prepareAS3ResourceConfig AS3Config.isDefaultAS3PartitionEmpty
  simp [h1]

/-- C7 witness: the theorem applied at a concrete pass with an unset partition
and a non-empty override payload. -/
theorem c7_override_suppression_witness :
    ((⟨"", ⟨"override-payload"⟩⟩ : AS3Config).defaultPartition = "" ∧
      (⟨"", ⟨"override-payload"⟩⟩ : AS3Config).overrideConfigmap.data ≠ "") ∧
    (prepareAS3ResourceConfig ⟨"", ⟨"override-payload"⟩⟩).overrideConfigmap.data = "" :=
  ⟨⟨rfl, by decide⟩, c7_override_suppression _ rfl (by decide)⟩

end AS3
